import Mathlib

/-!
Verification development for the UoA-CARES Gripper-Code repository.

The definitions below are shallow embeddings of the Python sources under
`scripts/`.  Machine floats are modelled as exact rationals (`ℚ`) where the
code only compares and adds angles, and as reals (`ℝ`) where a Euclidean
norm (`np.linalg.norm` / `math.dist`) is computed.  Hardware and vision I/O
(frame capture, serial reads, servo moves) is modelled by passing the
sequence of values the device would deliver as an explicit argument.
Python loops whose iteration count is bounded by the code itself are
embedded with that bound as structural fuel.
-/

/-- A marker pose as indexed by the code: `pose[1][2]` is the yaw, i.e.
element 2 of the orientation triple, `pose[0]` the position triple
(`scripts/gripper_environment.py`). -/
def MarkerPose : Type := (ℚ × ℚ × ℚ) × (ℚ × ℚ × ℚ)

instance : DecidableEq MarkerPose := by
  unfold MarkerPose
  infer_instance

/-- `pose[1][2]` — the yaw component of a marker pose. -/
def poseYaw (p : MarkerPose) : ℚ := p.2.2.2

/-- A marker pose whose yaw is `y` and all other components are zero. -/
def mkYawPose (y : ℚ) : MarkerPose := ((0, 0, 0), (0, 0, y))

/-- `Environment.reward_function` from `scripts/gripper_environment.py`
(lines 45–77): returns `(0, True)` if either marker pose is `None`
(final checked first), otherwise computes the angular difference to the
target and the change in difference; the delta reward is zeroed inside the
`[-3, 3]` noise band, and reaching within `3` degrees of the target adds a
bonus of `100` and terminates.  The `gripper_error` argument is accepted
and ignored, exactly as in the source. -/
def Environment.reward_function (target_angle : ℚ)
    (start_marker_pose final_marker_pose : Option MarkerPose)
    (gripper_error : Bool) : ℚ × Bool :=
  match final_marker_pose with
  | none => (0, true)
  | some finalPose =>
    match start_marker_pose with
    | none => (0, true)
    | some startPose =>
      let valve_angle_before := poseYaw startPose
      let valve_angle_after := poseYaw finalPose
      let angle_difference := |target_angle - valve_angle_after|
      let delta_changes :=
        |target_angle - valve_angle_before| - |target_angle - valve_angle_after|
      let reward : ℚ :=
        if -3 ≤ delta_changes ∧ delta_changes ≤ 3 then 0 else delta_changes
      if angle_difference ≤ 3 then (reward + 100, true) else (reward, false)

/-- Association-list lookup standing for Python's `marker_poses[marker_id]`
after the `marker_id in marker_poses` test. -/
def lookupMarker (poses : List (Nat × MarkerPose)) (marker_id : Nat) :
    Option MarkerPose :=
  (poses.find? (fun p => p.1 == marker_id)).map (·.2)

/-- The `while len(marker_poses) == 0 and detect_attempts < 4` loop of
`Environment.get_marker_pose` (`scripts/gripper_environment.py` lines
80–95).  `frames k` is the detection result of the `k`-th frame capture
(0-based).  The loop bound `4` is encoded as structural fuel `remaining`,
maintained equal to `4 - detect_attempts`; the pair returned is the final
`marker_poses` together with `detect_attempts`. -/
def gmp_loop (frames : Nat → List (Nat × MarkerPose)) :
    List (Nat × MarkerPose) → Nat → Nat → List (Nat × MarkerPose) × Nat
  | marker_poses, detect_attempts, 0 => (marker_poses, detect_attempts)
  | marker_poses, detect_attempts, remaining + 1 =>
    if marker_poses.length = 0 then
      gmp_loop frames (frames detect_attempts) (detect_attempts + 1) remaining
    else
      (marker_poses, detect_attempts)

/-- `Environment.get_marker_pose` (`scripts/gripper_environment.py` lines
80–95): runs the detection loop from an empty result with at most `4`
attempts, then returns the pose of `marker_id` if present, `None`
otherwise.  The second component is the number of frame captures
performed. -/
def Environment.get_marker_pose (frames : Nat → List (Nat × MarkerPose))
    (marker_id : Nat) : Option MarkerPose × Nat :=
  let r := gmp_loop frames [] 0 4
  (lookupMarker r.1 marker_id, r.2)

/-- `Environment.reset` (`scripts/gripper_environment.py` lines 17–30),
restricted to its observation construction: `home_state` and `terminated`
stand for the result of `gripper.home()`, `frames` for the camera input of
the embedded `get_marker_pose` call; the marker yaw, or the sentinel `-1`
when the pose is `None`, is appended to the state.  (The re-sampling of
`target_angle` is random internal state, not part of the returned
observation.) -/
def Environment.reset (frames : Nat → List (Nat × MarkerPose))
    (home_state : List ℚ) (terminated : Bool) : List ℚ × Bool :=
  let marker_pose := (Environment.get_marker_pose frames 0).1
  let marker_yaw : ℚ :=
    match marker_pose with
    | none => -1
    | some p => poseYaw p
  (home_state ++ [marker_yaw], terminated)

/-- `Environment.step` (`scripts/gripper_environment.py` lines 98–116):
reads the pre-move marker pose (camera input `frames_before`), moves the
gripper — modelled by the resulting `move_state` and `gripper_error` of
`gripper.move(action)` — reads the post-move pose (`frames_after`),
appends the final yaw (or `-1` when `None`) to the state, and computes
reward and termination with `reward_function`; `truncated` is always
`False`. -/
def Environment.step (target_angle : ℚ)
    (frames_before frames_after : Nat → List (Nat × MarkerPose))
    (move_state : List ℚ) (gripper_error : Bool) :
    List ℚ × ℚ × Bool × Bool :=
  let start_marker_pose := (Environment.get_marker_pose frames_before 0).1
  let final_marker_pose := (Environment.get_marker_pose frames_after 0).1
  let final_marker_yaw : ℚ :=
    match final_marker_pose with
    | none => -1
    | some p => poseYaw p
  let state := move_state ++ [final_marker_yaw]
  let rt := Environment.reward_function target_angle start_marker_pose
    final_marker_pose gripper_error
  (state, rt.1, rt.2, false)

/-! ## Translation reward functions (`ℝ`, Euclidean norm) -/

/-- `np.linalg.norm` of a 2-vector (`scripts/environments/TranslationEnvironment.py`
line 37). -/
noncomputable def npLinalgNorm2 (v : ℝ × ℝ) : ℝ :=
  Real.sqrt (v.1 ^ 2 + v.2 ^ 2)

/-- `math.dist` on 2-d points (`scripts/environments/two_finger/translation.py`
lines 75–76). -/
noncomputable def mathDist (a b : ℝ × ℝ) : ℝ :=
  Real.sqrt ((a.1 - b.1) ^ 2 + (a.2 - b.2) ^ 2)

/-- `TranslationEnvironment.reward_function`
(`scripts/environments/TranslationEnvironment.py` lines 25–61): `(0, True)`
if either pose is `None` (`goal_before` checked first); otherwise the
Euclidean distance from the first two goal coordinates to the first two
post-move object coordinates decides: within `noise_tolerance` the reward
is `500` with `done = True`, else the reward is the negated distance with
`done = False`. -/
noncomputable def TranslationEnvironment.reward_function (noise_tolerance : ℝ)
    (target_goal : ℝ × ℝ) (goal_before goal_after : Option (ℝ × ℝ)) :
    ℝ × Bool :=
  match goal_before with
  | none => (0, true)
  | some _ =>
    match goal_after with
    | none => (0, true)
    | some ga =>
      let goal_difference :=
        npLinalgNorm2 (target_goal.1 - ga.1, target_goal.2 - ga.2)
      if goal_difference ≤ noise_tolerance then (500, true)
      else (-goal_difference, false)

/-- `TwoFingerTranslation._reward_function`
(`scripts/environments/two_finger/translation.py` lines 65–103): computes
the goal distance before and after the move with `math.dist`; within
`noise_tolerance` of the goal the reward is `500` with `done = True`,
otherwise the reward is `0 + goal_progress`, the decrease in goal
distance, with `done = False`. -/
noncomputable def TwoFingerTranslation.reward_function (noise_tolerance : ℝ)
    (target_goal object_previous object_current : ℝ × ℝ) : ℝ × Bool :=
  let goal_distance_before := mathDist target_goal object_previous
  let goal_distance_after := mathDist target_goal object_current
  let goal_progress := goal_distance_before - goal_distance_after
  if goal_distance_after ≤ noise_tolerance then (500, true)
  else (goal_progress, false)

/-! ## `MagnetObject` serial protocol (`scripts/Objects.py` lines 113–158) -/

/-- The `Command` enum of `scripts/Objects.py` (lines 30–32). -/
inductive Command where
  | GET_YAW
  | OFFSET
deriving DecidableEq

/-- `Command.value`: `GET_YAW = 0`, `OFFSET = 1`. -/
def Command.value : Command → Nat
  | .GET_YAW => 0
  | .OFFSET => 1

/-- The string `MagnetObject.get_yaw` writes to the serial port:
`f"{Command.GET_YAW.value},"` (`scripts/Objects.py` line 124). -/
def MagnetObject.getYawCommand : String :=
  toString Command.GET_YAW.value ++ ","

/-- The string `MagnetObject.offset` writes to the serial port:
`f"{Command.OFFSET.value},{aruco_yaw}\n"` (`scripts/Objects.py` line 140);
`aruco_yaw` stands for Python's string formatting of the float argument. -/
def MagnetObject.offsetCommand (aruco_yaw : String) : String :=
  toString Command.OFFSET.value ++ "," ++ aruco_yaw ++ "\n"

/-- One line delivered by the serial device in response to a command write:
either bytes that fail UTF-8 decoding, or the decoded text of the line
(including the `\n` terminator kept by `read_until`). -/
inductive RawResponse where
  | undecodable
  | line (s : String)
deriving DecidableEq

/-- Python's `str.split(",")`: splits on every comma, keeping empty
fields, and returns `[s]` for a comma-free `s`. -/
def splitOnComma : List Char → List Char → List String
  | [], acc => [String.mk acc.reverse]
  | c :: rest, acc =>
    if c = ',' then String.mk acc.reverse :: splitOnComma rest []
    else splitOnComma rest (c :: acc)

/-- `MagnetObject.get_response` (`scripts/Objects.py` lines 120–121):
decode the line and split on commas; `none` models a raised
`UnicodeDecodeError`. -/
def MagnetObject.get_response : RawResponse → Option (List String)
  | .undecodable => none
  | .line s => some (splitOnComma s.data [])

/-- Whitespace trimming as done by Python's `float` on its argument. -/
def trimWS (cs : List Char) : List Char :=
  ((cs.dropWhile Char.isWhitespace).reverse.dropWhile Char.isWhitespace).reverse

/-- Value of a digit string. -/
def digitsVal (cs : List Char) : ℚ :=
  cs.foldl (fun a c => a * 10 + (c.toNat - 48 : ℕ)) 0

/-- Python's `float(s)` on the plain-decimal fragment of its grammar
(optional sign, integer digits, optional fractional part): `none` models a
raised `ValueError`.  Exponents and the `inf`/`nan` forms, which the
device never sends, are mapped to `ValueError` as well. -/
def parsePyFloat (s : String) : Option ℚ :=
  let t := trimWS s.data
  let core : List Char → Option ℚ := fun u =>
    let intPart := u.takeWhile Char.isDigit
    let rest := u.dropWhile Char.isDigit
    match rest with
    | [] => if intPart.isEmpty then none else some (digitsVal intPart)
    | '.' :: frac =>
      if frac.all Char.isDigit && !(intPart.isEmpty && frac.isEmpty) then
        some (digitsVal intPart + digitsVal frac / (10 ^ frac.length : ℚ))
      else none
    | _ => none
  match t with
  | '-' :: u => (core u).map (fun q => -q)
  | '+' :: u => core u
  | u => core u

/-- Outcome of a `MagnetObject.get_yaw` call. -/
inductive YawResult where
  /-- the parsed yaw float is returned -/
  | value (q : ℚ)
  /-- `UnicodeDecodeError` or `ValueError` was caught: the function logs
  and implicitly returns Python `None` -/
  | caught
  /-- `IndexError` on `response[1]`, which the handler does not catch -/
  | uncaught
  /-- the modelled response stream was exhausted while the loop was still
  re-sending (the real call would still be blocked reading) -/
  | pending
deriving DecidableEq

/-- The body of `MagnetObject.get_yaw` after the initial write
(`scripts/Objects.py` lines 123–136), as a function of the successive
response lines: a decode failure is caught (`.caught`); a response whose
first field is not `"YAW"` causes one re-send of the command and a read of
the next response; a `"YAW"` response has its second field parsed by
`float`, a parse failure again being caught.  The second component counts
the re-sends performed inside the `while` loop. -/
def MagnetObject.get_yaw_loop : List RawResponse → YawResult × Nat
  | [] => (.pending, 0)
  | r :: rest =>
    match MagnetObject.get_response r with
    | none => (.caught, 0)
    | some response =>
      if response.headD "" = "YAW" then
        match response with
        | _ :: payload :: _ =>
          match parsePyFloat payload with
          | some q => (.value q, 0)
          | none => (.caught, 0)
        | _ => (.uncaught, 0)
      else
        let r := MagnetObject.get_yaw_loop rest
        (r.1, r.2 + 1)

/-- `MagnetObject.get_yaw` (`scripts/Objects.py` lines 123–136) over the
stream of response lines the device will deliver.  The second component is
the total number of writes of `getYawCommand`: the initial send plus one
re-send per rejected response. -/
def MagnetObject.get_yaw (responses : List RawResponse) : YawResult × Nat :=
  let r := MagnetObject.get_yaw_loop responses
  (r.1, r.2 + 1)

/-! ## `ArucoObject.get_yaw` (`scripts/Objects.py` lines 91–103) -/

/-- An aruco marker pose as used by `ArucoObject.get_yaw`: only the
`"orientation"` triple is read (`marker_poses[id]["orientation"][2]`). -/
structure ArucoPose where
  orientation : ℚ × ℚ × ℚ
deriving DecidableEq

/-- Association-list lookup standing for the
`self.object_marker_id in marker_poses` test plus the dictionary access. -/
def lookupAruco (poses : List (Nat × ArucoPose)) (marker_id : Nat) :
    Option ArucoPose :=
  (poses.find? (fun p => p.1 == marker_id)).map (·.2)

/-- The `while not blindable or attempt < detection_attempts` loop of
`ArucoObject.get_yaw`.  `detections a` is the detection result of attempt
number `a` (1-based, as `attempt` is incremented before the frame
capture).  With `blindable = false` the loop is unbounded, so the
embedding carries structural `fuel`: the first component is `none` when
the fuel ran out with the loop still running, `some r` when the call
returned `r`.  The second component counts frame captures performed. -/
def ArucoObject.get_yaw_loop (detections : Nat → List (Nat × ArucoPose))
    (object_marker_id : Nat) (blindable : Bool) (detection_attempts : Nat) :
    Nat → Nat → Option (Option ℚ) × Nat
  | attempt, 0 =>
    if !blindable || attempt < detection_attempts then (none, 0)
    else (some none, 0)
  | attempt, fuel + 1 =>
    if !blindable || attempt < detection_attempts then
      let attempt' := attempt + 1
      let marker_poses := detections attempt'
      match lookupAruco marker_poses object_marker_id with
      | some pose => (some (some pose.orientation.2.2), 1)
      | none =>
        let r := ArucoObject.get_yaw_loop detections object_marker_id
          blindable detection_attempts attempt' fuel
        (r.1, r.2 + 1)
    else
      (some none, 0)

/-- `ArucoObject.get_yaw` (`scripts/Objects.py` lines 91–103): starts at
`attempt = 0`; each iteration increments `attempt`, captures a frame and
looks the tracked marker id up in the detection result, returning its
`orientation[2]` component on a hit; with `blindable = true` the loop
gives up and returns `None` once `attempt` reaches `detection_attempts`. -/
def ArucoObject.get_yaw (detections : Nat → List (Nat × ArucoPose))
    (object_marker_id : Nat) (blindable : Bool) (detection_attempts : Nat)
    (fuel : Nat) : Option (Option ℚ) × Nat :=
  ArucoObject.get_yaw_loop detections object_marker_id blindable
    detection_attempts 0 fuel

/-! ## `GripperTrainer.environment_step` (`scripts/gripper_trainer.py`
lines 115–145) -/

/-- The exception classes caught by `GripperTrainer.environment_step`. -/
inductive StepError where
  | environmentError
  | gripperError
deriving DecidableEq

/-- What a call to `GripperTrainer.environment_step` does, observably:
either it returns a `(state, reward, done, truncated)` tuple, or it closes
the gripper, saves the agent's models and exits the process. -/
inductive StepOutcome (σ : Type) where
  | result (state : σ) (reward : ℚ) (done : Bool) (truncated : Bool)
  | exitProcess (modelsSaved : Bool)
deriving DecidableEq

/-- Modelled from the spec: `tools.error_handlers.handle_gripper_error_home`
is imported by `scripts/gripper_trainer.py` but its module is not part of
the sources; per the spec it performs one environment home-and-resume
recovery and reports whether it succeeded, so its outcome is abstracted to
the boolean it returns. -/
def handle_gripper_error_home (recovery_outcome : Bool) : Bool :=
  recovery_outcome

/-- `GripperTrainer.environment_step` (`scripts/gripper_trainer.py` lines
115–145).  `step_result` is the outcome of `self.environment.step`: a
`(state, reward, done, truncated)` tuple, or a raised
`EnvironmentError`/`GripperError`.  On an exception the trainer calls
`handle_gripper_error_home` once; if it returns true the trainer returns
the current object pose as the state with reward `0`, `done = False` and
`truncated = False`; otherwise it closes the gripper, saves the models and
exits.  The second component counts the recovery attempts made. -/
def GripperTrainer.environment_step
    (step_result : Except StepError (List ℚ × ℚ × Bool × Bool))
    (recovery_outcome : Bool) (object_pose : List ℚ) :
    StepOutcome (List ℚ) × Nat :=
  match step_result with
  | .ok (state, reward, done, truncated) =>
    (.result state reward done truncated, 0)
  | .error _ =>
    if handle_gripper_error_home recovery_outcome then
      (.result object_pose 0 false false, 1)
    else
      (.exitProcess true, 1)

/-! ## Claims -/

/-- Claim C1: in every `Environment.step` in which the pre-move or the
post-move marker pose read returns `None`, the step's reward function
returns reward `0` and `done = true`, regardless of the action, the goal
or the other pose — both for the rotation reward of
`gripper_environment.py` and the translation reward of
`TranslationEnvironment.py`, and hence for `step` itself. -/
theorem claim_C1 :
    (∀ (t : ℚ) (sp : Option MarkerPose) (ge : Bool),
      Environment.reward_function t sp none ge = (0, true))
    ∧ (∀ (t : ℚ) (fp : Option MarkerPose) (ge : Bool),
      Environment.reward_function t none fp ge = (0, true))
    ∧ (∀ (tol : ℝ) (goal : ℝ × ℝ) (gb : Option (ℝ × ℝ)),
      TranslationEnvironment.reward_function tol goal gb none = (0, true))
    ∧ (∀ (tol : ℝ) (goal : ℝ × ℝ) (ga : Option (ℝ × ℝ)),
      TranslationEnvironment.reward_function tol goal none ga = (0, true))
    ∧ (∀ (t : ℚ) (fb fa : Nat → List (Nat × MarkerPose)) (mv : List ℚ)
        (ge : Bool), (Environment.get_marker_pose fa 0).1 = none →
      (Environment.step t fb fa mv ge).2.1 = 0
        ∧ (Environment.step t fb fa mv ge).2.2.1 = true)
    ∧ (∀ (t : ℚ) (fb fa : Nat → List (Nat × MarkerPose)) (mv : List ℚ)
        (ge : Bool), (Environment.get_marker_pose fb 0).1 = none →
      (Environment.step t fb fa mv ge).2.1 = 0
        ∧ (Environment.step t fb fa mv ge).2.2.1 = true) := by
  refine ⟨fun t sp ge => rfl, fun t fp ge => ?_, fun tol goal gb => ?_,
    fun tol goal ga => ?_, fun t fb fa mv ge h => ?_, fun t fb fa mv ge h => ?_⟩
  · cases fp <;> rfl
  · cases gb <;> rfl
  · cases ga <;> rfl
  · constructor <;> simp [Environment.step, h, Environment.reward_function]
  · rcases hfa : (Environment.get_marker_pose fa 0).1 with _ | p <;>
      constructor <;>
      simp [Environment.step, h, hfa, Environment.reward_function]

/-- Witness for C1: with a camera that never detects any marker the pose
reads return `None` and `step` yields reward `0` and `done = true`. -/
theorem claim_C1_witness :
    ((Environment.step 90 (fun _ => [(0, mkYawPose 5)]) (fun _ => [])
        [] false).2.1 = 0
      ∧ (Environment.step 90 (fun _ => [(0, mkYawPose 5)]) (fun _ => [])
        [] false).2.2.1 = true)
    ∧ ((Environment.step 90 (fun _ => []) (fun _ => [(0, mkYawPose 5)])
        [] false).2.1 = 0
      ∧ (Environment.step 90 (fun _ => []) (fun _ => [(0, mkYawPose 5)])
        [] false).2.2.1 = true) :=
  ⟨claim_C1.2.2.2.2.1 90 (fun _ => [(0, mkYawPose 5)]) (fun _ => []) [] false
    (by decide),
   claim_C1.2.2.2.2.2 90 (fun _ => []) (fun _ => [(0, mkYawPose 5)]) [] false
    (by decide)⟩

/-- Claim C2: on an `EnvironmentError`/`GripperError` raised by
`environment.step`, `GripperTrainer.environment_step` makes exactly one
recovery attempt; if it succeeds the call returns the current object pose
with reward `0`, `done = false`, `truncated = false`, and if it fails the
models are saved and the process exits — no second recovery attempt in
either case.  On a successful step no recovery attempt is made. -/
theorem claim_C2 :
    (∀ (e : StepError) (recovery : Bool) (pose : List ℚ),
      GripperTrainer.environment_step (.error e) recovery pose
        = (if recovery then .result pose 0 false false else .exitProcess true,
           1))
    ∧ (∀ (res : List ℚ × ℚ × Bool × Bool) (recovery : Bool) (pose : List ℚ),
      GripperTrainer.environment_step (.ok res) recovery pose
        = (.result res.1 res.2.1 res.2.2.1 res.2.2.2, 0)) := by
  constructor
  · intro e recovery pose
    cases recovery <;>
      simp [GripperTrainer.environment_step, handle_gripper_error_home]
  · intro res recovery pose
    obtain ⟨s, r, d, t⟩ := res
    rfl

/-- Claim C4 counterexample: with `target_angle = 90`, both sensed yaws
`91` (goal-adjacent start, final yaw within tolerance `3`), the rotation
reward function of `gripper_environment.py` does not return `(500, true)`:
its termination bonus is `100`. -/
theorem claim_C4_counterexample :
    Environment.reward_function 90 (some (mkYawPose 91)) (some (mkYawPose 91))
      false ≠ (500, true) := by
  have h1 : |(90 : ℚ) - 91| = 1 := by norm_num
  simp [Environment.reward_function, mkYawPose, poseYaw, h1]

/-- Claim C4 (amended): for a rotation-task step with `target_angle = 90`,
tolerance `3`, both poses available and final sensed yaw `91`, the reward
function returns `done = true` and reward `100` plus the noise-banded
delta term — in particular exactly `100` when the start yaw makes the
delta change fall inside the `[-3, 3]` band; the termination bonus in this
code is `100`, not `500`. -/
theorem claim_C4 : ∀ (b : ℚ) (ge : Bool),
    Environment.reward_function 90 (some (mkYawPose b)) (some (mkYawPose 91))
      ge
      = ((if -3 ≤ |90 - b| - 1 ∧ |90 - b| - 1 ≤ 3 then 0 else |90 - b| - 1)
          + 100, true) := by
  intro b ge
  have h1 : |(90 : ℚ) - 91| = 1 := by norm_num
  simp [Environment.reward_function, mkYawPose, poseYaw, h1]

/-- Claim C7, code evaluated at the failing input: a response line whose
bytes fail to decode makes `MagnetObject.get_yaw` return immediately with
the exception caught (Python `None`), after the single initial command
write — the valid `"YAW"` line still queued behind it is never read, i.e.
no retry of the read happens. -/
theorem claim_C7_eval :
    MagnetObject.get_yaw [.undecodable, .line "YAW,173.5\n"] = (.caught, 1)
      := by
  simp [MagnetObject.get_yaw, MagnetObject.get_yaw_loop,
    MagnetObject.get_response]

/-- Claim C8 counterexample: the request `MagnetObject.get_yaw` writes is
not `"0,\n"` — the code formats `f"{Command.GET_YAW.value},"` with no
newline terminator. -/
theorem claim_C8_counterexample : MagnetObject.getYawCommand ≠ "0,\n" := by
  decide

/-- Claim C8 (amended): `get_yaw` writes exactly `"0,"` (command code 0,
no parameters, and no newline terminator), while `offset(v)` writes
exactly `"1,<v>\n"` (command code 1, one parameter, newline-terminated).
-/
theorem claim_C8 :
    MagnetObject.getYawCommand = "0,"
    ∧ ∀ (s : String), MagnetObject.offsetCommand s = "1," ++ s ++ "\n" :=
  ⟨by decide, fun s => rfl⟩

/-- Claim C5: in `MagnetObject.get_yaw`, every response line whose first
comma-separated field is not `"YAW"` triggers exactly one re-send of the
command before the next response is read (the write count grows by exactly
one and the remaining stream decides the result); a response tagged
`"YAW"` is accepted there and then, independently of any further queued
responses; and the single response line `"YAW,173.5\n"` makes the call
return the value `173.5` after the one initial write. -/
theorem claim_C5 :
    (∀ (s : String) (rest : List RawResponse),
      (splitOnComma s.data []).headD "" ≠ "YAW" →
      MagnetObject.get_yaw (.line s :: rest)
        = ((MagnetObject.get_yaw rest).1, (MagnetObject.get_yaw rest).2 + 1))
    ∧ (∀ (s : String) (rest : List RawResponse),
      (splitOnComma s.data []).headD "" = "YAW" →
      MagnetObject.get_yaw (.line s :: rest) = MagnetObject.get_yaw [.line s])
    ∧ MagnetObject.get_yaw [.line "YAW,173.5\n"] = (.value (347/2), 1) := by
  refine ⟨fun s rest h => ?_, fun s rest h => ?_, ?_⟩
  · simp only [MagnetObject.get_yaw, MagnetObject.get_yaw_loop,
      MagnetObject.get_response]
    rw [if_neg h]
  · simp only [MagnetObject.get_yaw, MagnetObject.get_yaw_loop,
      MagnetObject.get_response]
    rw [if_pos h, if_pos h]
  · simp +decide [MagnetObject.get_yaw, MagnetObject.get_yaw_loop,
      MagnetObject.get_response, splitOnComma, parsePyFloat, trimWS,
      digitsVal]
    norm_num

/-- Witness for C5: a `"NOPE"`-tagged line before a valid `"YAW"` line
causes exactly one re-send, and a `"YAW"` line is accepted regardless of
what is queued behind it. -/
theorem claim_C5_witness :
    ((splitOnComma ("NOPE,1\n").data []).headD "" ≠ "YAW"
      ∧ MagnetObject.get_yaw [.line "NOPE,1\n", .line "YAW,173.5\n"]
        = ((MagnetObject.get_yaw [.line "YAW,173.5\n"]).1,
           (MagnetObject.get_yaw [.line "YAW,173.5\n"]).2 + 1))
    ∧ ((splitOnComma ("YAW,173.5\n").data []).headD "" = "YAW"
      ∧ MagnetObject.get_yaw [.line "YAW,173.5\n", .undecodable]
        = MagnetObject.get_yaw [.line "YAW,173.5\n"]) :=
  ⟨⟨by decide, claim_C5.1 "NOPE,1\n" [.line "YAW,173.5\n"] (by decide)⟩,
   ⟨by decide, claim_C5.2.1 "YAW,173.5\n" [.undecodable] (by decide)⟩⟩

/-- Claim C9: whenever the tracked marker's pose is unavailable,
`Environment.reset` and `Environment.step` append the sentinel `-1` as the
yaw element of the returned observation — the element is present either
way (the measured yaw is appended when the pose is available), never
omitted and never a `None`. -/
theorem claim_C9 :
    (∀ (frames : Nat → List (Nat × MarkerPose)) (home_state : List ℚ)
        (b : Bool), (Environment.get_marker_pose frames 0).1 = none →
      (Environment.reset frames home_state b).1 = home_state ++ [-1])
    ∧ (∀ (frames : Nat → List (Nat × MarkerPose)) (home_state : List ℚ)
        (b : Bool) (p : MarkerPose),
        (Environment.get_marker_pose frames 0).1 = some p →
      (Environment.reset frames home_state b).1 = home_state ++ [poseYaw p])
    ∧ (∀ (t : ℚ) (fb fa : Nat → List (Nat × MarkerPose)) (mv : List ℚ)
        (ge : Bool), (Environment.get_marker_pose fa 0).1 = none →
      (Environment.step t fb fa mv ge).1 = mv ++ [-1])
    ∧ (∀ (t : ℚ) (fb fa : Nat → List (Nat × MarkerPose)) (mv : List ℚ)
        (ge : Bool) (p : MarkerPose),
        (Environment.get_marker_pose fa 0).1 = some p →
      (Environment.step t fb fa mv ge).1 = mv ++ [poseYaw p]) := by
  refine ⟨fun frames hs b h => ?_, fun frames hs b p h => ?_,
    fun t fb fa mv ge h => ?_, fun t fb fa mv ge p h => ?_⟩
  · simp [Environment.reset, h]
  · simp [Environment.reset, h]
  · simp [Environment.step, h]
  · simp [Environment.step, h]

/-- Witness for C9: a camera that never detects a marker makes `reset` and
`step` append `-1`; one that always sees marker `0` makes them append its
yaw. -/
theorem claim_C9_witness :
    (Environment.reset (fun _ => []) [1, 2] false).1 = [1, 2] ++ [-1]
    ∧ (Environment.reset (fun _ => [(0, mkYawPose 7)]) [1, 2] false).1
        = [1, 2] ++ [poseYaw (mkYawPose 7)]
    ∧ (Environment.step 90 (fun _ => []) (fun _ => []) [3] false).1
        = [3] ++ [-1]
    ∧ (Environment.step 90 (fun _ => []) (fun _ => [(0, mkYawPose 7)]) [3]
        false).1 = [3] ++ [poseYaw (mkYawPose 7)] :=
  ⟨claim_C9.1 (fun _ => []) [1, 2] false (by decide),
   claim_C9.2.1 (fun _ => [(0, mkYawPose 7)]) [1, 2] false (mkYawPose 7) rfl,
   claim_C9.2.2.1 90 (fun _ => []) (fun _ => []) [3] false (by decide),
   claim_C9.2.2.2 90 (fun _ => []) (fun _ => [(0, mkYawPose 7)]) [3] false
     (mkYawPose 7) rfl⟩

/-- If the tracked marker is never detected, the blindable aruco loop runs
its remaining attempts and returns `None`, counting one frame capture per
attempt. -/
theorem aruco_loop_miss_all (detections : Nat → List (Nat × ArucoPose))
    (id : Nat) (h : ∀ a, lookupAruco (detections a) id = none) :
    ∀ (fuel attempt da : Nat), da ≤ attempt + fuel →
      ArucoObject.get_yaw_loop detections id true da attempt fuel
        = (some none, da - attempt) := by
  intro fuel
  induction fuel with
  | zero =>
    intro attempt da hda
    rw [ArucoObject.get_yaw_loop, if_neg (by simp; omega)]
    have h0 : da - attempt = 0 := by omega
    rw [h0]
  | succ fuel ih =>
    intro attempt da hda
    rw [ArucoObject.get_yaw_loop]
    by_cases hlt : attempt < da
    · rw [if_pos (by simp [hlt])]
      simp only [h (attempt + 1)]
      rw [ih (attempt + 1) da (by omega)]
      have h0 : da - (attempt + 1) + 1 = da - attempt := by omega
      simp [h0]
    · rw [if_neg (by simp; omega)]
      have h0 : da - attempt = 0 := by omega
      rw [h0]

/-- If the first detection containing the tracked marker is attempt `j`,
the blindable aruco loop returns that marker's yaw after `j - attempt`
frame captures. -/
theorem aruco_loop_hit (detections : Nat → List (Nat × ArucoPose))
    (id j : Nat) (y : ArucoPose)
    (hmiss : ∀ k, k < j → lookupAruco (detections k) id = none)
    (hhit : lookupAruco (detections j) id = some y) :
    ∀ (fuel attempt da : Nat), attempt < j → j ≤ attempt + fuel → j ≤ da →
      ArucoObject.get_yaw_loop detections id true da attempt fuel
        = (some (some y.orientation.2.2), j - attempt) := by
  intro fuel
  induction fuel with
  | zero =>
    intro attempt da h1 h2 _
    omega
  | succ fuel ih =>
    intro attempt da h1 h2 h3
    rw [ArucoObject.get_yaw_loop]
    rw [if_pos (by simp; omega)]
    by_cases hj : attempt + 1 = j
    · subst hj
      simp only [hhit]
      have h0 : attempt + 1 - attempt = 1 := by omega
      rw [h0]
    · simp only [hmiss (attempt + 1) (by omega)]
      rw [ih (attempt + 1) da (by omega) (by omega) h3]
      have h0 : j - (attempt + 1) + 1 = j - attempt := by omega
      simp [h0]

/-- Claim C6: with `blindable = true` and `detection_attempts = 10`, if
the tracked marker id is present in no detection result,
`ArucoObject.get_yaw` returns `None` after exactly `10` frame-capture
attempts — for every fuel bound at least `10`, so neither fewer nor
unboundedly many; and if the marker first appears in attempt `j ≤ 10`, the
call returns that marker's yaw component (`orientation[2]`). -/
theorem claim_C6 : ∀ (detections : Nat → List (Nat × ArucoPose)) (id : Nat)
    (fuel : Nat), 10 ≤ fuel →
    ((∀ a, lookupAruco (detections a) id = none) →
      ArucoObject.get_yaw detections id true 10 fuel = (some none, 10))
    ∧ (∀ (j : Nat) (y : ArucoPose), 1 ≤ j → j ≤ 10 →
        (∀ k, k < j → lookupAruco (detections k) id = none) →
        lookupAruco (detections j) id = some y →
        ArucoObject.get_yaw detections id true 10 fuel
          = (some (some y.orientation.2.2), j)) := by
  intro detections id fuel hfuel
  constructor
  · intro h
    have := aruco_loop_miss_all detections id h fuel 0 10 (by omega)
    simpa [ArucoObject.get_yaw] using this
  · intro j y h1 h10 hmiss hhit
    have := aruco_loop_hit detections id j y hmiss hhit fuel 0 10
      (by omega) (by omega) h10
    simpa [ArucoObject.get_yaw] using this

/-- Witness for C6: a camera that never sees marker `7` gives `None` after
exactly `10` attempts; one that first sees it in attempt `3` with yaw `42`
gives `42` after `3` attempts. -/
theorem claim_C6_witness :
    ArucoObject.get_yaw (fun _ => []) 7 true 10 10 = (some none, 10)
    ∧ ArucoObject.get_yaw
        (fun a => if a = 3 then [(7, ⟨(0, 0, 42)⟩)] else []) 7 true 10 10
      = (some (some 42), 3) :=
  ⟨(claim_C6 (fun _ => []) 7 10 (by norm_num)).1 (fun a => rfl),
   (claim_C6 (fun a => if a = 3 then [(7, ⟨(0, 0, 42)⟩)] else []) 7 10
      (by norm_num)).2 3 ⟨(0, 0, 42)⟩ (by norm_num) (by norm_num)
      (by intro k hk; interval_cases k <;> rfl) rfl⟩

/-- The detection loop performs at most `r` further captures: the final
attempt counter is bounded by `d + r`. -/
theorem gmp_loop_attempts_le (frames : Nat → List (Nat × MarkerPose)) :
    ∀ (r d : Nat) (poses : List (Nat × MarkerPose)),
      (gmp_loop frames poses d r).2 ≤ d + r := by
  intro r
  induction r with
  | zero => intro d poses; simp [gmp_loop]
  | succ r ih =>
    intro d poses
    rw [gmp_loop]
    by_cases h : poses.length = 0
    · rw [if_pos h]
      have := ih (d + 1) (frames d)
      omega
    · rw [if_neg h]
      omega

/-- A non-empty detection result stops the loop at once, whatever the
attempt counter and fuel. -/
theorem gmp_loop_nonempty (frames : Nat → List (Nat × MarkerPose))
    (poses : List (Nat × MarkerPose)) (h : poses ≠ []) :
    ∀ (r d : Nat), gmp_loop frames poses d r = (poses, d) := by
  intro r d
  cases r with
  | zero => rfl
  | succ r =>
    rw [gmp_loop, if_neg]
    simpa using h

/-- If captures `d, …, j - 1` are empty and capture `j` is the first
non-empty one (within the bound), the loop returns capture `j` with the
counter at `j + 1`. -/
theorem gmp_loop_first (frames : Nat → List (Nat × MarkerPose)) :
    ∀ (r j d : Nat), d ≤ j → j < d + r →
      (∀ k, d ≤ k → k < j → frames k = []) → frames j ≠ [] →
      gmp_loop frames [] d r = (frames j, j + 1) := by
  intro r
  induction r with
  | zero => intro j d _ h2 _ _; omega
  | succ r ih =>
    intro j d h1 h2 hempty hj
    rw [gmp_loop, if_pos (by simp)]
    by_cases hdj : d = j
    · subst hdj
      rw [gmp_loop_nonempty frames (frames d) hj]
    · rw [hempty d (by omega) (by omega)]
      exact ih j (d + 1) (by omega) (by omega)
        (fun k hk1 hk2 => hempty k (by omega) hk2) hj

/-- Claim C10: `Environment.get_marker_pose` always performs at most `4`
frame captures; it stops at the first detection attempt returning a
non-empty pose set, even if the requested `marker_id` is not among the
detected ids; and it returns `None` exactly when `marker_id` is absent
from the final detection result. -/
theorem claim_C10 : ∀ (frames : Nat → List (Nat × MarkerPose))
    (marker_id : Nat),
    (Environment.get_marker_pose frames marker_id).2 ≤ 4
    ∧ (∀ j, j < 4 → (∀ k, k < j → frames k = []) → frames j ≠ [] →
        gmp_loop frames [] 0 4 = (frames j, j + 1))
    ∧ ((Environment.get_marker_pose frames marker_id).1 = none ↔
        ∀ pr ∈ (gmp_loop frames [] 0 4).1, pr.1 ≠ marker_id) := by
  intro frames marker_id
  refine ⟨?_, ?_, ?_⟩
  · have := gmp_loop_attempts_le frames 4 0 []
    simpa [Environment.get_marker_pose] using this
  · intro j hj hempty hne
    exact gmp_loop_first frames 4 j 0 (by omega) (by omega)
      (fun k _ hk => hempty k hk) hne
  · simp [Environment.get_marker_pose, lookupMarker, List.find?_eq_none]

/-- Witness for C10: with the first non-empty capture at index `1`
containing only marker `5`, the loop stops after `2` captures and the
lookup of marker `0` returns `None`. -/
theorem claim_C10_witness :
    (Environment.get_marker_pose
        (fun k => if k = 1 then [(5, mkYawPose 9)] else []) 0).2 ≤ 4
    ∧ gmp_loop (fun k => if k = 1 then [(5, mkYawPose 9)] else []) [] 0 4
        = ((fun k => if k = 1 then [(5, mkYawPose 9)] else []) 1, 1 + 1) :=
  ⟨(claim_C10 (fun k => if k = 1 then [(5, mkYawPose 9)] else []) 0).1,
   (claim_C10 (fun k => if k = 1 then [(5, mkYawPose 9)] else []) 0).2.1 1
     (by norm_num) (by intro k hk; interval_cases k; rfl) (by simp)⟩

/-- Square roots of perfect squares, for evaluating the Euclidean
distances at concrete points. -/
theorem real_sqrt_eval (a b : ℝ) (h : 0 ≤ b) (hab : a = b ^ 2) :
    Real.sqrt a = b := by
  rw [hab, Real.sqrt_sq h]

/-- Claim C3 counterexample: in `TwoFingerTranslation._reward_function`
with tolerance `1`, goal `(0,0)`, previous object position `(10,0)` and
current `(5,0)`, the distance to the goal is `5 > 1`, and the reward is
the progress delta `10 - 5 = 5`, not the negated distance `-5` the claim
requires for every translation-task reward evaluation. -/
theorem claim_C3_counterexample :
    TwoFingerTranslation.reward_function 1 (0, 0) (10, 0) (5, 0) = (5, false)
    ∧ TwoFingerTranslation.reward_function 1 (0, 0) (10, 0) (5, 0)
        ≠ (-5, false) := by
  have h5 : mathDist (0, 0) (5, 0) = 5 :=
    real_sqrt_eval _ 5 (by norm_num) (by norm_num)
  have h10 : mathDist (0, 0) (10, 0) = 10 :=
    real_sqrt_eval _ 10 (by norm_num) (by norm_num)
  have he : TwoFingerTranslation.reward_function 1 (0, 0) (10, 0) (5, 0)
      = (5, false) := by
    simp only [TwoFingerTranslation.reward_function, h5, h10]
    rw [if_neg (by norm_num)]
    norm_num
  refine ⟨he, ?_⟩
  rw [he]
  intro hc
  have h1 : (5 : ℝ) = -5 := congrArg Prod.fst hc
  norm_num at h1

/-- Claim C3 (amended): with both object poses available,
`TranslationEnvironment.reward_function` behaves as the claim states —
distance within `noise_tolerance` gives `(500, true)`, otherwise
`done = false` with reward the negated distance; in
`TwoFingerTranslation._reward_function` the within-tolerance case is the
same but outside tolerance the reward is the progress delta
`dist_before - dist_after`, not the negated distance. -/
theorem claim_C3 : ∀ (tol : ℝ) (goal gb ga prev cur : ℝ × ℝ),
    (npLinalgNorm2 (goal.1 - ga.1, goal.2 - ga.2) ≤ tol →
      TranslationEnvironment.reward_function tol goal (some gb) (some ga)
        = (500, true))
    ∧ (tol < npLinalgNorm2 (goal.1 - ga.1, goal.2 - ga.2) →
      TranslationEnvironment.reward_function tol goal (some gb) (some ga)
        = (-npLinalgNorm2 (goal.1 - ga.1, goal.2 - ga.2), false))
    ∧ (mathDist goal cur ≤ tol →
      TwoFingerTranslation.reward_function tol goal prev cur = (500, true))
    ∧ (tol < mathDist goal cur →
      TwoFingerTranslation.reward_function tol goal prev cur
        = (mathDist goal prev - mathDist goal cur, false)) := by
  intro tol goal gb ga prev cur
  refine ⟨fun h => ?_, fun h => ?_, fun h => ?_, fun h => ?_⟩
  · simp only [TranslationEnvironment.reward_function]
    rw [if_pos h]
  · simp only [TranslationEnvironment.reward_function]
    rw [if_neg (not_le.mpr h)]
  · simp only [TwoFingerTranslation.reward_function]
    rw [if_pos h]
  · simp only [TwoFingerTranslation.reward_function]
    rw [if_neg (not_le.mpr h)]

/-- Witness for C3: concrete evaluations on both sides of the tolerance
boundary for both translation reward functions. -/
theorem claim_C3_witness :
    TranslationEnvironment.reward_function 15 (3, 4) (some (0, 0))
        (some (3, 4)) = (500, true)
    ∧ TranslationEnvironment.reward_function 1 (0, 0) (some (0, 0))
        (some (3, 4)) = (-npLinalgNorm2 ((0 : ℝ) - 3, (0 : ℝ) - 4), false)
    ∧ TwoFingerTranslation.reward_function 15 (3, 4) (0, 0) (3, 4)
        = (500, true)
    ∧ TwoFingerTranslation.reward_function 1 (0, 0) (10, 0) (5, 0)
        = (mathDist (0, 0) (10, 0) - mathDist (0, 0) (5, 0), false) :=
  ⟨(claim_C3 15 (3, 4) (0, 0) (3, 4) (0, 0) (0, 0)).1
      (by norm_num [npLinalgNorm2, Real.sqrt_zero]),
   (claim_C3 1 (0, 0) (0, 0) (3, 4) (0, 0) (0, 0)).2.1
      (by norm_num [npLinalgNorm2,
        real_sqrt_eval 25 5 (by norm_num) (by norm_num)]),
   (claim_C3 15 (3, 4) (0, 0) (0, 0) (0, 0) (3, 4)).2.2.1
      (by norm_num [mathDist, Real.sqrt_zero]),
   (claim_C3 1 (0, 0) (0, 0) (0, 0) (10, 0) (5, 0)).2.2.2
      (by norm_num [mathDist,
        real_sqrt_eval 25 5 (by norm_num) (by norm_num)])⟩
